import Mathlib

/-!
Verification of the four HTTP handlers in `src/main.py` (a minimal FastAPI
application) against its natural-language specification.

Embedding conventions:
* Python `float` is modelled as `Rat` (exact arithmetic over the values the
  handlers actually compute; the handlers only ever add two numbers).
* A Python `dict` with string keys is modelled as an insertion-ordered
  association list `Dict := List (String × PyValue)`; `Dict.update` follows
  the semantics of Python `dict.update` with a single key (replace in place
  when the key exists, append otherwise), and `Dict.extendWith` follows the
  semantics of the literal-splat merge used in the source.
* The optional fields of the pydantic model `Item` are `Option` values;
  `Item.dict` mirrors pydantic `.dict()`, which emits every declared field,
  absent optionals appearing as `None` (here `PyValue.null`).
* The unguarded Python expression `item.price + item.tax` (a `float` plus an
  `Optional[float]`) is modelled by `pyAddFloatOpt`, which fails exactly when
  the right operand is absent, mirroring the `TypeError` Python raises.
-/

set_option autoImplicit false

namespace StudyFastapi

/-- Values appearing in the JSON-like response dictionaries of the handlers. -/
inductive PyValue where
  | null : PyValue
  | str : String → PyValue
  | num : Rat → PyValue
  | int : Int → PyValue
  | arr : List PyValue → PyValue
  | obj : List (String × PyValue) → PyValue

/-- A Python dictionary with string keys, in insertion order. -/
abbrev Dict := List (String × PyValue)

/-- Whether the dictionary has an entry for key `k`. -/
def Dict.hasKey (d : Dict) (k : String) : Bool :=
  d.any (fun p => p.1 == k)

/-- Lookup of key `k`, following first occurrence (keys are unique in any
dictionary the handlers build). -/
def Dict.get (d : Dict) (k : String) : Option PyValue :=
  (d.find? (fun p => p.1 == k)).map Prod.snd

/-- Python `d.update` with a single key: replace the value in place when the
key exists, append the pair otherwise. -/
def Dict.update (d : Dict) (k : String) (v : PyValue) : Dict :=
  if d.hasKey k then d.map (fun p => if p.1 == k then (k, v) else p)
  else d ++ [(k, v)]

/-- Merge used by the dictionary-literal splat in the source: each pair of `e`
is inserted into `d` in order. -/
def Dict.extendWith (d : Dict) (e : Dict) : Dict :=
  e.foldl (fun acc p => Dict.update acc p.1 p.2) d

/-- The pydantic request-body model `Item` of `src/main.py` lines 13 to 21:
`name` and `price` are required, `description` and `tax` are optional with
default `None`. -/
structure Item where
  name : String
  description : Option String
  price : Rat
  tax : Option Rat
deriving DecidableEq

/-- An optional string as a JSON value (`None` becomes `null`). -/
def optStrVal : Option String → PyValue
  | some s => PyValue.str s
  | none => PyValue.null

/-- An optional number as a JSON value (`None` becomes `null`). -/
def optNumVal : Option Rat → PyValue
  | some x => PyValue.num x
  | none => PyValue.null

/-- Pydantic `item.dict()`: every declared field in declaration order, absent
optionals as `null`. -/
def Item.dict (item : Item) : Dict :=
  [("name", PyValue.str item.name),
   ("description", optStrVal item.description),
   ("price", PyValue.num item.price),
   ("tax", optNumVal item.tax)]

/-- The message of the `TypeError` Python raises on `float + None`. -/
def pyAddTypeErrorMsg : String := "TypeError: unsupported operand types for +: float and NoneType"

/-- The Python expression `x + y` where `x : float` and `y : Optional[float]`:
it fails with a `TypeError` exactly when `y` is `None`. -/
def pyAddFloatOpt (x : Rat) (y : Option Rat) : Except String Rat :=
  match y with
  | some v => Except.ok (x + v)
  | none => Except.error pyAddTypeErrorMsg

/-- Handler of `POST /items1/` (`src/main.py` lines 37 to 43): builds
`item.dict()`, computes `price_with_tax = item.price + item.tax` (unguarded:
the addition raises when `tax` is absent and nothing catches it), adds the
computed field and returns the dictionary. -/
def create_item1 (item : Item) : Except String Dict :=
  let item_dict := item.dict
  match pyAddFloatOpt item.price item.tax with
  | Except.error e => Except.error e
  | Except.ok price_with_tax =>
      Except.ok (Dict.update item_dict ("price_with_tax") (PyValue.num price_with_tax))

/-- Handler of `PUT /items2/item_id` (`src/main.py` lines 51 to 53): returns
the dictionary literal merging `item_id` with the splat of `item.dict()`. -/
def create_item2 (item_id : Int) (item : Item) : Dict :=
  Dict.extendWith [("item_id", PyValue.int item_id)] item.dict

/-- Python truthiness of an optional string: `None` and the empty string are
falsy. -/
def pyTruthy : Option String → Bool
  | some s => s ≠ ""
  | none => false

/-- Handler of `PUT /items3/item_id` (`src/main.py` lines 60 to 65): the merged
dictionary as in `create_item2`, then `result.update` with key `"q"` when `q`
is truthy. -/
def create_item3 (item_id : Int) (item : Item) (q : Option String) : Dict :=
  let result := Dict.extendWith [("item_id", PyValue.int item_id)] item.dict
  match q with
  | some s => if s = "" then result else Dict.update result ("q") (PyValue.str s)
  | none => result

/-- The fixed list `[{"item_id": "Foo"}, {"item_id": "Bar"}]` of the
`GET /items4` handler. -/
def fixedItems : PyValue :=
  PyValue.arr [PyValue.obj [("item_id", PyValue.str ("Foo"))],
               PyValue.obj [("item_id", PyValue.str ("Bar"))]]

/-- Body of the `GET /items4` handler (`src/main.py` lines 82 to 87): the fixed
results dictionary, plus `results.update` with key `q` itself (the value of
the parameter, not the literal string) when `q` is truthy. -/
def read_items (q : Option String) : Dict :=
  let results := [("items", fixedItems)]
  match q with
  | some s => if s = "" then results else Dict.update results s (PyValue.str s)
  | none => results

/-- A structured, field-identifying validation error, as produced by the
external validation layer. -/
structure ValidationError where
  loc : List String
  msg : String
deriving DecidableEq

/-- The declared minimum length of `q` (`min_length=3` on line 83). -/
def qMinLength : Nat := 3

/-- The declared maximum length of `q` (`max_length=50` on line 83). -/
def qMaxLength : Nat := 50

/-- Whether `s` matches the declared anchored pattern: per the spec the fixed
pattern admits exactly the string `fixedquery`. -/
def qPatternMatches (s : String) : Bool := s == "fixedquery"

/-- Modelled from the spec: the external validation layer checks the declared
constraints of `q` (length between `min_length` and `max_length`, match of the
declared pattern) and reports a structured error naming the query field `q`
when one fails. -/
def validateQ (s : String) : Option ValidationError :=
  if s.length < qMinLength then
    some ⟨["query", "q"], "ensure this value has at least 3 characters"⟩
  else if qMaxLength < s.length then
    some ⟨["query", "q"], "ensure this value has at most 50 characters"⟩
  else if ¬ qPatternMatches s then
    some ⟨["query", "q"], "string does not match pattern"⟩
  else none

/-- Modelled from the spec: the `GET /items4` endpoint as seen by a client.
The external request-binding layer rejects a missing `q` (the `Query` default
on line 83 makes it required) and a `q` violating the declared constraints,
with a structured error naming the field; otherwise the handler body runs. -/
def read_items4_endpoint (q : Option String) : Except ValidationError Dict :=
  match q with
  | none => Except.error ⟨["query", "q"], "field required"⟩
  | some s =>
      match validateQ s with
      | some e => Except.error e
      | none => Except.ok (read_items (some s))

/-- A request body for `Item` whose fields are already well-typed but possibly
absent: validation decides acceptance purely on presence of the required
fields. -/
structure RawItemPayload where
  name : Option String
  description : Option String
  price : Option Rat
  tax : Option Rat
deriving DecidableEq

/-- The required fields absent from the payload, in declaration order. -/
def missingItemFields (p : RawItemPayload) : List String :=
  (if p.name.isNone then [("name")] else []) ++ (if p.price.isNone then [("price")] else [])

/-- Modelled from the spec: the external validation layer accepts a payload as
an `Item` exactly when the required fields `name` and `price` are present, and
otherwise reports the offending fields. -/
def validateItem (p : RawItemPayload) : Except (List String) Item :=
  match p.name, p.price with
  | some n, some pr => Except.ok ⟨n, p.description, pr, p.tax⟩
  | _, _ => Except.error (missingItemFields p)

/-- One routed request, covering the four routes of the application. -/
inductive Request where
  | postItems1 (item : Item)
  | putItems2 (item_id : Int) (item : Item)
  | putItems3 (item_id : Int) (item : Item) (q : Option String)
  | getItems4 (q : Option String)
deriving DecidableEq

/-- A client-visible outcome: a successful dictionary, a structured validation
error, or an unhandled server-side failure. -/
inductive Response where
  | ok (d : Dict)
  | validationError (e : ValidationError)
  | serverError (msg : String)

/-- The application state. The source module defines no mutable state at all
(its only module-level bindings are the class, the app object and the route
table, none of which any handler writes), so the state type is a point. -/
def AppState : Type := Unit

/-- Dispatch of one request to its handler. -/
def dispatch : Request → Response
  | Request.postItems1 item =>
      match create_item1 item with
      | Except.ok d => Response.ok d
      | Except.error e => Response.serverError e
  | Request.putItems2 i item => Response.ok (create_item2 i item)
  | Request.putItems3 i item q => Response.ok (create_item3 i item q)
  | Request.getItems4 q =>
      match read_items4_endpoint q with
      | Except.ok d => Response.ok d
      | Except.error e => Response.validationError e

/-- Handling of one request: the state is read and returned unchanged, since
no handler touches any state. -/
def handleRequest (st : AppState) (r : Request) : AppState × Response :=
  (st, dispatch r)

/-! ## Basic dictionary lemmas -/

theorem Dict.update_of_not_hasKey (d : Dict) (k : String) (v : PyValue)
    (h : d.hasKey k = false) : Dict.update d k v = d ++ [(k, v)] := by
  simp [Dict.update, h]

theorem itemDict_hasKey (item : Item) (k : String) :
    (Item.dict item).hasKey k =
      (("name" == k) || ("description" == k) || ("price" == k) || ("tax" == k)) := by
  simp [Item.dict, Dict.hasKey, Bool.or_assoc]

theorem itemDict_keys (item : Item) :
    (Item.dict item).map Prod.fst = [("name"), ("description"), ("price"), ("tax")] := rfl

theorem create_item2_eq (item_id : Int) (item : Item) :
    create_item2 item_id item = ("item_id", PyValue.int item_id) :: item.dict := rfl

theorem validateQ_eq_none (s : String) :
    validateQ s = none ↔
      (qMinLength ≤ s.length ∧ s.length ≤ qMaxLength ∧ qPatternMatches s = true) := by
  unfold validateQ
  split_ifs with h1 h2 h3 <;> simp_all [qMinLength, qMaxLength]

theorem validateQ_loc (s : String) (e : ValidationError) (h : validateQ s = some e) :
    e.loc = ["query", "q"] := by
  unfold validateQ at h
  split_ifs at h <;> simp_all <;> subst h <;> rfl

theorem read_items_fixedquery :
    read_items (some ("fixedquery")) =
      [("items", fixedItems), ("fixedquery", PyValue.str ("fixedquery"))] := rfl

theorem read_items4_endpoint_ok_eq (q : Option String) (d : Dict)
    (h : read_items4_endpoint q = Except.ok d) :
    q = some ("fixedquery") ∧
      d = [("items", fixedItems), ("fixedquery", PyValue.str ("fixedquery"))] := by
  cases q with
  | none => simp [read_items4_endpoint] at h
  | some s =>
    cases hv : validateQ s with
    | some e => simp [read_items4_endpoint, hv] at h
    | none =>
      obtain ⟨-, -, hpat⟩ := (validateQ_eq_none s).mp hv
      have hs : s = "fixedquery" := eq_of_beq hpat
      subst hs
      simp only [read_items4_endpoint, hv] at h
      exact ⟨rfl, by injection h with h2; exact h2.symm⟩

/-! ## Claim theorems -/

/-- C1: for every valid Item payload in which tax is present, the POST /items1/
handler returns the Item fields unchanged together with the added key
price_with_tax whose value is exactly price + tax. -/
theorem c1_items1_price_with_tax (item : Item) (t : Rat) (h : item.tax = some t) :
    create_item1 item =
      Except.ok (item.dict ++ [("price_with_tax", PyValue.num (item.price + t))]) ∧
    ∀ d, create_item1 item = Except.ok d →
      Dict.get d ("price_with_tax") = some (PyValue.num (item.price + t)) ∧
      Dict.get d ("name") = some (PyValue.str item.name) ∧
      Dict.get d ("description") = some (optStrVal item.description) ∧
      Dict.get d ("price") = some (PyValue.num item.price) ∧
      Dict.get d ("tax") = some (optNumVal item.tax) := by
  obtain ⟨n, de, pr, tax⟩ := item
  have h2 : tax = some t := h
  subst h2
  refine ⟨rfl, ?_⟩
  intro d hd
  have hd2 : (Except.ok
      (Item.dict ⟨n, de, pr, some t⟩ ++ [("price_with_tax", PyValue.num (pr + t))]) :
        Except String Dict)
      = Except.ok d := hd
  injection hd2 with hd3
  subst hd3
  exact ⟨rfl, rfl, rfl, rfl, rfl⟩

/-- Witness for C1 at the payload of the spec example. -/
theorem c1_items1_price_with_tax_witness :
    create_item1 ⟨("Foo"), none, 10, some (3/2)⟩ =
      Except.ok ((Item.dict ⟨("Foo"), none, 10, some (3/2)⟩) ++
        [("price_with_tax", PyValue.num (10 + 3/2))]) :=
  (c1_items1_price_with_tax ⟨("Foo"), none, 10, some (3/2)⟩ (3/2) rfl).1

/-- C2: for every valid Item payload in which tax is absent, the POST /items1/
handler fails at runtime on the addition price + tax, and the failure is
unguarded: the handler never produces a successful dictionary. -/
theorem c2_items1_missing_tax_fails (item : Item) (h : item.tax = none) :
    create_item1 item = Except.error pyAddTypeErrorMsg ∧
    ∀ d, create_item1 item ≠ Except.ok d := by
  obtain ⟨n, de, pr, tax⟩ := item
  have h2 : tax = none := h
  subst h2
  exact ⟨rfl, fun d hd => by simp [create_item1, pyAddFloatOpt] at hd⟩

/-- Witness for C2 at a concrete payload with absent tax. -/
theorem c2_items1_missing_tax_fails_witness :
    create_item1 ⟨("Foo"), none, 10, none⟩ = Except.error pyAddTypeErrorMsg :=
  (c2_items1_missing_tax_fails ⟨("Foo"), none, 10, none⟩ rfl).1

/-- C5: for every integer path identifier and every valid Item payload, the
PUT /items2/ handler returns the identifier under key item_id followed by all
Item fields, and the returned item_id equals the path value. -/
theorem c5_items2_merges_id_and_fields (item_id : Int) (item : Item) :
    create_item2 item_id item = ("item_id", PyValue.int item_id) :: item.dict ∧
    Dict.get (create_item2 item_id item) ("item_id") = some (PyValue.int item_id) ∧
    Dict.get (create_item2 item_id item) ("name") = some (PyValue.str item.name) ∧
    Dict.get (create_item2 item_id item) ("description") = some (optStrVal item.description) ∧
    Dict.get (create_item2 item_id item) ("price") = some (PyValue.num item.price) ∧
    Dict.get (create_item2 item_id item) ("tax") = some (optNumVal item.tax) :=
  ⟨rfl, rfl, rfl, rfl, rfl, rfl⟩

/-- C9: for every valid Item payload with tax present, the POST /items1/
response has exactly the five keys name, description, price, tax and
price_with_tax in that order, and an omitted optional description still
appears, with a null value. -/
theorem c9_items1_response_key_set (item : Item) (t : Rat) (h : item.tax = some t) :
    ∃ d, create_item1 item = Except.ok d ∧
      d.map Prod.fst = [("name"), ("description"), ("price"), ("tax"), ("price_with_tax")] ∧
      (item.description = none → Dict.get d ("description") = some PyValue.null) ∧
      (item.tax = some t → Dict.get d ("tax") = some (PyValue.num t)) := by
  obtain ⟨n, de, pr, tax⟩ := item
  have h2 : tax = some t := h
  subst h2
  refine ⟨_, rfl, rfl, ?_, fun _ => rfl⟩
  intro hde
  have h3 : de = none := hde
  subst h3
  rfl

/-- Witness for C9 at a payload omitting description. -/
theorem c9_items1_response_key_set_witness :
    ∃ d, create_item1 ⟨("Foo"), none, 10, some (3/2)⟩ = Except.ok d ∧
      d.map Prod.fst = [("name"), ("description"), ("price"), ("tax"), ("price_with_tax")] ∧
      ((none : Option String) = none → Dict.get d ("description") = some PyValue.null) ∧
      ((some (3/2) : Option Rat) = some (3/2) → Dict.get d ("tax") = some (PyValue.num (3/2))) :=
  c9_items1_response_key_set ⟨("Foo"), none, 10, some (3/2)⟩ (3/2) rfl

/-- C3: GET /items4 requires q and fails with a structured error naming the
field q exactly when q is missing or violates the declared constraints;
fixedquery succeeds while ab and notmatching are rejected. -/
theorem c3_items4_requires_valid_q :
    (∀ q : Option String, (∃ e, read_items4_endpoint q = Except.error e) ↔
      (q = none ∨ ∃ s, q = some s ∧
        ¬ (qMinLength ≤ s.length ∧ s.length ≤ qMaxLength ∧ qPatternMatches s = true))) ∧
    (∀ s : String, (∃ d, read_items4_endpoint (some s) = Except.ok d) ↔
      (qMinLength ≤ s.length ∧ s.length ≤ qMaxLength ∧ qPatternMatches s = true)) ∧
    (∀ q e, read_items4_endpoint q = Except.error e → e.loc = ["query", "q"]) ∧
    (∃ d, read_items4_endpoint (some ("fixedquery")) = Except.ok d) ∧
    (∃ e, read_items4_endpoint (some ("ab")) = Except.error e) ∧
    (∃ e, read_items4_endpoint (some ("notmatching")) = Except.error e) := by
  have hok : ∀ s : String, (∃ d, read_items4_endpoint (some s) = Except.ok d) ↔
      (qMinLength ≤ s.length ∧ s.length ≤ qMaxLength ∧ qPatternMatches s = true) := by
    intro s
    cases hv : validateQ s with
    | some e =>
      simp only [read_items4_endpoint, hv]
      constructor
      · rintro ⟨d, hd⟩
        exact absurd hd (by simp)
      · intro hc
        exact absurd ((validateQ_eq_none s).mpr hc) (by simp [hv])
    | none =>
      simp only [read_items4_endpoint, hv]
      exact ⟨fun _ => (validateQ_eq_none s).mp hv, fun _ => ⟨_, rfl⟩⟩
  refine ⟨?_, hok, ?_, ?_, ?_, ?_⟩
  · intro q
    cases q with
    | none =>
      constructor
      · intro _
        exact Or.inl rfl
      · intro _
        exact ⟨⟨["query", "q"], "field required"⟩, rfl⟩
    | some s =>
      cases hv : validateQ s with
      | some e =>
        simp only [read_items4_endpoint, hv]
        refine ⟨fun _ => Or.inr ⟨s, rfl, ?_⟩, fun _ => ⟨e, rfl⟩⟩
        intro hc
        exact absurd ((validateQ_eq_none s).mpr hc) (by simp [hv])
      | none =>
        simp only [read_items4_endpoint, hv]
        constructor
        · rintro ⟨e, he⟩
          exact absurd he (by simp)
        · rintro (h | ⟨s2, hs2, hc⟩)
          · exact absurd h (by simp)
          · have h4 : s2 = s := by injection hs2.symm
            subst h4
            exact absurd ((validateQ_eq_none _).mp hv) hc
  · intro q e he
    cases q with
    | none =>
      have h2 : (Except.error ⟨["query", "q"], "field required"⟩ : Except ValidationError Dict)
          = Except.error e := he
      injection h2 with h3
      exact h3 ▸ rfl
    | some s =>
      cases hv : validateQ s with
      | some e2 =>
        simp only [read_items4_endpoint, hv] at he
        injection he with h3
        exact h3 ▸ validateQ_loc s e2 hv
      | none => simp [read_items4_endpoint, hv] at he
  · exact ⟨[("items", fixedItems), ("fixedquery", PyValue.str ("fixedquery"))], rfl⟩
  · exact ⟨⟨["query", "q"], "ensure this value has at least 3 characters"⟩, rfl⟩
  · exact ⟨⟨["query", "q"], "string does not match pattern"⟩, rfl⟩

/-- Witness for C3: the implication naming the field is applied at the
missing-q request. -/
theorem c3_items4_requires_valid_q_witness :
    (⟨["query", "q"], "field required"⟩ : ValidationError).loc = ["query", "q"] :=
  c3_items4_requires_valid_q.2.2.1 none ⟨["query", "q"], "field required"⟩ rfl

/-- C4: the PUT /items3/ handler returns the identifier under item_id plus all
Item fields, and the response carries the key q, with value q, exactly when q
is present and non-empty; with no q, or an empty q, there is no q key. -/
theorem c4_items3_optional_q (item_id : Int) (item : Item) (q : Option String) :
    (∀ s, q = some s → s ≠ "" →
      create_item3 item_id item q =
        (("item_id", PyValue.int item_id) :: item.dict) ++ [("q", PyValue.str s)] ∧
      Dict.get (create_item3 item_id item q) ("q") = some (PyValue.str s)) ∧
    (pyTruthy q = false →
      create_item3 item_id item q = ("item_id", PyValue.int item_id) :: item.dict ∧
      Dict.hasKey (create_item3 item_id item q) ("q") = false) ∧
    (Dict.hasKey (create_item3 item_id item q) ("q") = true ↔ ∃ s, q = some s ∧ s ≠ "") ∧
    Dict.get (create_item3 item_id item q) ("item_id") = some (PyValue.int item_id) := by
  cases q with
  | none =>
    refine ⟨fun s hs => by simp at hs, fun _ => ⟨rfl, rfl⟩, ?_, rfl⟩
    constructor
    · intro hk
      exact absurd hk (fun h => Bool.noConfusion h)
    · rintro ⟨s, hs, -⟩
      exact absurd hs (by simp)
  | some s =>
    by_cases hse : s = ""
    · subst hse
      refine ⟨fun s2 hs2 hne => absurd (by injection hs2.symm) hne, fun _ => ⟨rfl, rfl⟩, ?_, rfl⟩
      constructor
      · intro hk
        exact absurd hk (fun h => Bool.noConfusion h)
      · rintro ⟨s2, hs2, hne⟩
        exact absurd (by injection hs2.symm) hne
    · have hred : create_item3 item_id item (some s) =
          (("item_id", PyValue.int item_id) :: item.dict) ++ [("q", PyValue.str s)] := by
        simp only [create_item3, if_neg hse]
        exact Dict.update_of_not_hasKey _ _ _ rfl
      refine ⟨fun s2 hs2 _ => ?_, fun ht => ?_, ?_, ?_⟩
      · have h4 : s2 = s := by injection hs2.symm
        subst h4
        refine ⟨hred, ?_⟩
        rw [hred]
        rfl
      · exact absurd ht (by simp [pyTruthy, hse])
      · rw [hred]
        exact ⟨fun _ => ⟨s, rfl, hse⟩, fun _ => rfl⟩
      · rw [hred]
        rfl

/-- Witness for C4 at the spec example with q present. -/
theorem c4_items3_optional_q_witness :
    create_item3 5 ⟨("Foo"), none, 10, none⟩ (some ("hello")) =
      (("item_id", PyValue.int 5) :: Item.dict ⟨("Foo"), none, 10, none⟩) ++
        [("q", PyValue.str ("hello"))] :=
  ((c4_items3_optional_q 5 ⟨("Foo"), none, 10, none⟩ (some ("hello"))).1
    ("hello") rfl (by decide)).1

/-- C6: every successful GET /items4 response is the fixed two-item result
list plus one extra entry whose key is the value of q itself, so no literal
key q appears. -/
theorem c6_items4_key_is_q_value (q : Option String) (d : Dict)
    (h : read_items4_endpoint q = Except.ok d) :
    ∃ s, q = some s ∧
      d = [("items", fixedItems), (s, PyValue.str s)] ∧
      Dict.get d s = some (PyValue.str s) ∧
      Dict.hasKey d ("q") = false := by
  obtain ⟨hq, hd⟩ := read_items4_endpoint_ok_eq q d h
  subst hq
  subst hd
  exact ⟨("fixedquery"), rfl, rfl, rfl, rfl⟩

/-- Witness for C6 at the valid query. -/
theorem c6_items4_key_is_q_value_witness :
    ∃ s, (some ("fixedquery") : Option String) = some s ∧
      ([("items", fixedItems), ("fixedquery", PyValue.str ("fixedquery"))] : Dict)
        = [("items", fixedItems), (s, PyValue.str s)] ∧
      Dict.get [("items", fixedItems), ("fixedquery", PyValue.str ("fixedquery"))] s
        = some (PyValue.str s) ∧
      Dict.hasKey [("items", fixedItems), ("fixedquery", PyValue.str ("fixedquery"))] ("q")
        = false :=
  c6_items4_key_is_q_value (some ("fixedquery"))
    [("items", fixedItems), ("fixedquery", PyValue.str ("fixedquery"))] rfl

/-- C7: a payload is accepted as an Item exactly when name and price are
present; description and tax are optional and carried over; a rejection
reports precisely the missing required fields. -/
theorem c7_item_validation (p : RawItemPayload) :
    ((∃ item, validateItem p = Except.ok item) ↔ (p.name.isSome ∧ p.price.isSome)) ∧
    (∀ n pr, p.name = some n → p.price = some pr →
      validateItem p = Except.ok ⟨n, p.description, pr, p.tax⟩) ∧
    (∀ errs, validateItem p = Except.error errs →
      errs ≠ [] ∧
      ((("name") ∈ errs) ↔ p.name = none) ∧
      ((("price") ∈ errs) ↔ p.price = none) ∧
      ∀ f, f ∈ errs → f = "name" ∨ f = "price") := by
  obtain ⟨pn, pd, pp, pt⟩ := p
  cases pn <;> cases pp <;>
    simp_all [validateItem, missingItemFields]

/-- Witness for C7 at a complete payload. -/
theorem c7_item_validation_witness :
    validateItem ⟨some ("Foo"), none, some 10, none⟩ =
      Except.ok ⟨("Foo"), none, 10, none⟩ :=
  (c7_item_validation ⟨some ("Foo"), none, some 10, none⟩).2.1 ("Foo") 10 rfl rfl

/-- C8: handlers are deterministic and stateless: handling a request leaves
the application state unchanged, the response does not depend on the state,
and repeating the identical request yields the identical response. -/
theorem c8_handlers_stateless (st : AppState) (r : Request) :
    (handleRequest st r).1 = st ∧
    (∀ st2 : AppState, (handleRequest st2 r).2 = (handleRequest st r).2) ∧
    (handleRequest ((handleRequest st r).1) r).2 = (handleRequest st r).2 :=
  ⟨rfl, fun _ => rfl, rfl⟩

/-- C10: every successful GET /items4 response equals the one constant
dictionary, since the declared pattern admits only the string fixedquery. -/
theorem c10_items4_constant_success (q : Option String) (d : Dict)
    (h : read_items4_endpoint q = Except.ok d) :
    d = [("items", PyValue.arr [PyValue.obj [("item_id", PyValue.str ("Foo"))],
           PyValue.obj [("item_id", PyValue.str ("Bar"))]]),
         ("fixedquery", PyValue.str ("fixedquery"))] :=
  (read_items4_endpoint_ok_eq q d h).2

/-- Witness for C10 at the valid query. -/
theorem c10_items4_constant_success_witness :
    ([("items", fixedItems), ("fixedquery", PyValue.str ("fixedquery"))] : Dict)
      = [("items", PyValue.arr [PyValue.obj [("item_id", PyValue.str ("Foo"))],
           PyValue.obj [("item_id", PyValue.str ("Bar"))]]),
         ("fixedquery", PyValue.str ("fixedquery"))] :=
  c10_items4_constant_success (some ("fixedquery"))
    [("items", fixedItems), ("fixedquery", PyValue.str ("fixedquery"))] rfl

end StudyFastapi
